import Mathlib

/-!
Verification of `CDMam_wadwrapper.py` (MedPhysQC/MG_CDMAM).

This file is a shallow embedding of the wrapper module's own logic: the
runtime-parameter phase of `cdmamsetup_series` (lines 59-99), the detector
dispatch and result emission of `qc_series` (lines 158-217), the
multi-image aggregation `cdmamqc_list` (lines 128-156), and the header
emission of `header_series` (lines 238-269).  Calls into the external
collaborators (`wad_qc.modulelibs.wadwrapper_lib`, `CDMam_lib`, `pydicom`)
are taken as oracle parameters, and Python `float` values are modelled as
rationals.  Python exception behaviour (dict `KeyError`, attribute errors,
reads of unassigned locals and of undefined names) is modelled explicitly,
because several claims hinge on exactly which exception escapes.
-/

namespace CDMamWrapper

/-! ## Model of the Python values and exceptions involved -/

/-- Model of a Python runtime value as it can occur in the `params`
mapping of a config action: a string or a boolean (the JSON config
delivers these two kinds for the parameters this module reads). -/
inductive PyVal where
  | str (s : String)
  | bool (b : Bool)
  deriving DecidableEq, Repr

/-- Model of the Python exceptions the embedded code paths can raise. -/
inductive PyExc where
  | keyError (key : String)
  | valueError (msg : String)
  | attributeError (msg : String)
  | unboundLocalError (name : String)
  | nameError (name : String)
  | toolError (msg : String)
  deriving DecidableEq, Repr

/-- A Python `dict` as delivered by the JSON config: an association list
from string keys to values; lookup returns the first binding. -/
abbrev Params := List (String × PyVal)

/-- Lookup of a key in a `dict`, as an `Option`. -/
def dictFind (params : Params) (k : String) : Option PyVal :=
  (params.find? (fun kv => kv.1 == k)).map (fun kv => kv.2)

/-- Python `params[k]` on a dict: the value when the key is present;
a missing key raises `KeyError(k)` (never `AttributeError`). -/
def dictGetItem (params : Params) (k : String) : Except PyExc PyVal :=
  match dictFind params k with
  | some v => Except.ok v
  | none => Except.error (PyExc.keyError k)

/-- Python `params.get(k, d)` on a dict: total, with default `d`. -/
def dictGet (params : Params) (k : String) (d : PyVal) : PyVal :=
  (dictFind params k).getD d

/-- Python `try: body except AttributeError: handler`: only an
`AttributeError` raised by the body is caught; every other exception
(in particular `KeyError`) propagates unchanged. -/
def tryExceptAttributeError {α : Type} (body handler : Except PyExc α) :
    Except PyExc α :=
  match body with
  | Except.error (PyExc.attributeError _) => handler
  | r => r

/-- Python read of a function-local variable: yields the current value if
the local has been assigned, and raises `UnboundLocalError` otherwise. -/
def readLocal {α : Type} (value : Option α) (name : String) : Except PyExc α :=
  match value with
  | some v => Except.ok v
  | none => Except.error (PyExc.unboundLocalError name)

/-- Python read of a name that is defined neither as a local nor as a
module-level global: raises `NameError`. -/
def readUndefinedName (α : Type) (name : String) : Except PyExc α :=
  Except.error (PyExc.nameError name)

/-! ## Python string primitives used by the wrapper -/

/-- ASCII lowercase of one character (Python `str.lower`, restricted to
the ASCII arguments that occur for this module's parameters). -/
def asciiLowerChar (c : Char) : Char :=
  if 'A' ≤ c ∧ c ≤ 'Z' then Char.ofNat (c.toNat + 32) else c

/-- Python `s.lower()` on ASCII strings. -/
def pyLower (s : String) : String := String.mk (s.data.map asciiLowerChar)

/-- Python `str(v)` for the modelled values: strings are unchanged and
booleans print as `"True"` / `"False"`. -/
def PyVal.pyStr : PyVal → String
  | PyVal.str s => s
  | PyVal.bool true => "True"
  | PyVal.bool false => "False"

/-- Helper for `pySplit`: walk the characters, cutting at the separator
and keeping empty pieces. -/
def pySplitAux (sep : Char) : List Char → List Char → List String
  | [], acc => [String.mk acc.reverse]
  | c :: rest, acc =>
    if c = sep then String.mk acc.reverse :: pySplitAux sep rest []
    else pySplitAux sep rest (c :: acc)

/-- Python `s.split(sep)` for a one-character separator: cuts at every
occurrence and keeps empty pieces, so `"".split(";") == [""]`. -/
def pySplit (s : String) (sep : Char) : List String := pySplitAux sep s.data []

/-- Python `.split(';')` sent to a modelled value: only strings have a
`split` attribute; on a boolean it raises `AttributeError`. -/
def pySplitSemicolonVal : PyVal → Except PyExc (List String)
  | PyVal.str s => Except.ok (pySplit s ';')
  | PyVal.bool _ => Except.error (PyExc.attributeError "split")

/-- Python `s.zfill(width)`: left-pad with `'0'` to at least `width`
characters, keeping a leading sign in front of the padding. -/
def pyZfill (s : String) (width : Nat) : String :=
  if width ≤ s.length then s
  else
    let pad := String.mk (List.replicate (width - s.length) '0')
    match s.data with
    | '-' :: rest => "-" ++ pad ++ String.mk rest
    | '+' :: rest => "+" ++ pad ++ String.mk rest
    | _ => pad ++ s

/-- Python `'%0.2f' % q`: the value printed with two decimals.  The
rounding is computed on the exact rational, half away from zero; CPython
rounds the underlying binary double half to even, which agrees on every
input that is not an exact two-decimal tie (the phantom diameters are
such inputs). -/
def fmt2 (q : ℚ) : String :=
  let n : Nat := (q.num.natAbs * 200 + q.den) / (2 * q.den)
  let sign := if q.num < 0 then "-" else ""
  let frac := n % 100
  sign ++ toString (n / 100) ++ "." ++
    (if frac < 10 then "0" else "") ++ toString frac

/-- Boolean test that `pre` is an initial segment of `s` (used to state
which emitted results are the per-diameter `limit_um_` values). -/
def strStartsWith (pre s : String) : Bool := pre.data.isPrefixOf s.data

/-- Python slicing `s[:k]` for `0 ≤ k`: the first `k` characters. -/
def pySliceUpTo (s : String) (k : Nat) : String := String.mk (s.data.take k)

/-- Last position of a character in a character list. -/
def lastIdxOf (c : Char) (l : List Char) : Option Nat :=
  ((l.enum.filter (fun ic => ic.2 == c)).getLast?).map (fun ic => ic.1)

/-- Root part of Python `os.path.splitext(p)` (used for the artifact
result names): everything before the extension, where the extension
starts at the last dot of the basename provided some non-dot character
of the basename precedes that dot. -/
def splitextRoot (p : String) : String :=
  let cs := p.data
  let sep : Int := ((lastIdxOf '/' cs).map Int.ofNat).getD (-1)
  let dot : Int := ((lastIdxOf '.' cs).map Int.ofNat).getD (-1)
  let lead := cs.enum.any (fun ic =>
    decide (sep < (ic.1 : Int)) && decide ((ic.1 : Int) < dot) && ic.2 != '.')
  if sep < dot ∧ lead = true then String.mk (cs.take dot.toNat) else p

/-! ## The runtime-parameter phase of `cdmamsetup_series` (lines 59-99) -/

/-- The three values produced by step 1 of `cdmamsetup_series` (lines
68-86): the phantom version, the decoded `modeCDCOM` flag and the split
`parsCDCOM` flag list. -/
structure SetupParams where
  phantomversion : PyVal
  modeCDCOM : Bool
  parsCDCOM : List String
  deriving DecidableEq, Repr

/-- Shallow embedding of step 1 of `cdmamsetup_series` (lines 68-86).
Steps 2-3 of the source function only call the external collaborators
(`wadwrapper_lib.prepareInput`, `CDMam_lib.CDMam`, `CDMam_lib.CDMamStruct`,
`determineScannerID`) and copy these three values into the returned
structure unchanged, so the claims about the parameter check are settled
against this phase.  Each `try/except` block in the source catches only
`AttributeError`, faithfully kept here: a dict lookup of a missing key
raises `KeyError`, which such a block does not catch. -/
def cdmamsetup_params (params : Params) (headers_only : Bool) :
    Except PyExc SetupParams :=
  if !headers_only then do
    let phantomversion ← tryExceptAttributeError
      (dictGetItem params "phantomversion")
      (Except.error (PyExc.valueError
        "[CDMam_wadwrapper]  missing phantomversion parameter!"))
    let modeVal ← tryExceptAttributeError
      (dictGetItem params "modeCDCOM")
      (Except.error (PyExc.valueError
        "[CDMam_wadwrapper]  missing cdcommode parameter!"))
    let modeCDCOM := pyLower modeVal.pyStr == "true"
    let parsCDCOM ← tryExceptAttributeError
      (pySplitSemicolonVal (dictGet params "parsCDCOM" (PyVal.str "")))
      (Except.error (PyExc.valueError
        "[CDMam_wadwrapper]  malformed parsCDCOM parameter!"))
    return { phantomversion := phantomversion, modeCDCOM := modeCDCOM,
             parsCDCOM := parsCDCOM }
  else
    return { phantomversion := PyVal.str "3.2", modeCDCOM := false,
             parsCDCOM := [] }

/-! ## Score matrices and the aggregation loops of `cdmamqc_list` -/

/-- Score matrix: a 2-D array of per-cell detection scores; Python floats
are modelled as rationals. -/
abbrev Mat := List (List ℚ)

/-- Elementwise sum of two rows (inner loop of lines 145-147, under the
equal-shape contract of spec §4.3). -/
def rowAdd (a b : List ℚ) : List ℚ := List.zipWith (fun x y => x + y) a b

/-- Elementwise sum of two score matrices (lines 145-147). -/
def matAdd (a b : Mat) : Mat := List.zipWith rowAdd a b

/-- Python `np.zeros((r, c)).tolist()`. -/
def zerosMat (r c : Nat) : Mat := List.replicate r (List.replicate c (0 : ℚ))

/-- The accumulation loop of `cdmamqc_list` (lines 145-147): elementwise
`+=` of each per-image score matrix into the running total. -/
def accumulateScores (init : Mat) (scores : List Mat) : Mat :=
  scores.foldl matAdd init

/-- The averaging loop of `cdmamqc_list` (lines 152-154): elementwise
division of the accumulated matrix by the image count.  The source writes
`len(imagelist)` there, with `imagelist` an undefined name; the count is
taken as an explicit argument per the corrected contract of spec §4.3/§9
(divide by the number of processed images). -/
def finalizeScores (m : Mat) (count : Nat) : Mat :=
  m.map (fun row => row.map (fun x => x / (count : ℚ)))

/-- Shallow embedding of `cdmamqc_list` (lines 128-156), with the
external pieces as oracles: `mkCS` stands for steps 2-3 of
`cdmamsetup_series` (building the qcstructure for a filename and image
number), `cdmamSingle` / `cdcomSingle` for the two detectors, and
`thresholdThickness` for the fit stage.  Python local-variable semantics
are modelled explicitly: line 133 evaluates
`np.shape(cs.phantom.groundtruth)` although the local `cs` is first
assigned inside the loop at line 138, so that read finds no value; and
line 154 reads `len(imagelist)` although `imagelist` is defined nowhere
in the function or module. -/
def cdmamqc_list (CS TT : Type) (series_filelist : List String)
    (params : Params) (mkCS : String → Nat → Except PyExc CS)
    (groundtruthShape : CS → Nat × Nat)
    (cdmamSingle cdcomSingle : CS → Except PyExc Mat)
    (thresholdThickness : CS → Mat → TT) : Except PyExc TT := do
  let cs0 ← readLocal (none : Option CS) "cs"
  let finalscore0 := zerosMat (groundtruthShape cs0).1 (groundtruthShape cs0).2
  let st ← series_filelist.foldlM
    (fun (st : Mat × Nat × Option CS) fname => do
      let r ← cdmamsetup_params params false
      let cs ← mkCS fname st.2.1
      let score ← if !r.modeCDCOM then cdmamSingle cs else cdcomSingle cs
      return (matAdd st.1 score, st.2.1 + 1, some cs))
    (finalscore0, 0, (none : Option CS))
  let nimages ← readUndefinedName Nat "imagelist"
  let avg := finalizeScores st.1 nimages
  let cslast ← readLocal st.2.2 "cs"
  return thresholdThickness cslast avg

/-! ## The detector dispatch and result emission of `qc_series` -/

/-- Which detector `qc_series` ran: the built-in `CDMamSingle` model
observer or the external `CDCOMSingle` path. -/
inductive DetectorPath where
  | cdmam
  | cdcom
  deriving DecidableEq, Repr

/-- Shallow embedding of the analysis phase of `qc_series` (lines
186-193): run the parameter phase with `headers_only=False`, pick the
detector by the decoded `modeCDCOM` flag, and hand the resulting score
matrix unchanged to `thresholdThickness`.  The detectors and
`thresholdThickness` live in the external `CDMam_lib` and are oracle
parameters; the returned pair records which path ran and what the
`thresholdThickness` call produced. -/
def qc_series_run (CS Score Out : Type) (params : Params)
    (cdmamSingle cdcomSingle : CS → Score)
    (thresholdThickness : Score → Out) (cs : CS) :
    Except PyExc (DetectorPath × Out) := do
  let r ← cdmamsetup_params params false
  let pathScore :=
    if !r.modeCDCOM then (DetectorPath.cdmam, cdmamSingle cs)
    else (DetectorPath.cdcom, cdcomSingle cs)
  return (pathScore.1, thresholdThickness pathScore.2)

/-- A value handed to the results object: `addFloat` or `addObject`. -/
inductive ResVal where
  | floatV (x : ℚ)
  | objV (path : String)
  deriving DecidableEq, Repr

/-- Whether a result entry is a float result (`addFloat`). -/
def ResVal.isFloat : ResVal → Bool
  | ResVal.floatV _ => true
  | ResVal.objV _ => false

/-- The fields of the populated qcstructure that the output phase of
`qc_series` reads; they are produced by the external `CDMam_lib`
analysis. -/
structure CSOut where
  diam_mm : List ℚ
  limit_um : List ℚ
  iqf : ℚ
  threshold_fnames : List String
  fit_fnames : List String

/-- Shallow embedding of the output phase of `qc_series` (lines
204-217): one `addFloat` per pair of `zip(cs.diam_mm, cs.limit_um)`,
named `'limit_um_' + str('%0.2f' % di).zfill(4) + idname`; one `addFloat`
named `'iqf' + idname`; then one `addObject` per threshold-map artifact
filename and per fit artifact filename, named by the filename root. -/
def qc_series_results (cs : CSOut) (idname : String) :
    List (String × ResVal) :=
  (cs.diam_mm.zip cs.limit_um).map (fun dl =>
    ("limit_um_" ++ pyZfill (fmt2 dl.1) 4 ++ idname, ResVal.floatV dl.2))
  ++ [("iqf" ++ idname, ResVal.floatV cs.iqf)]
  ++ cs.threshold_fnames.map (fun fn => (splitextRoot fn, ResVal.objV fn))
  ++ cs.fit_fnames.map (fun fn => (splitextRoot fn, ResVal.objV fn))

/-! ## The output phase of `header_series` -/

/-- Shallow embedding of the output phase of `header_series` (lines
262-269): one `addString` of the plugin version, then one `addString` per
DICOM info pair, whose value is `str(di[1])[:min(len(str(di[1])), 100)]`.
The DICOM info pairs come from the external `DICOMInfo` collaborator and
are oracle input. -/
def header_series_results (qcversion idname : String)
    (dicominfo : List (String × String)) : List (String × String) :=
  ("pluginversion" ++ idname, qcversion)
  :: dicominfo.map (fun di =>
      (di.1 ++ idname, pySliceUpTo di.2 (min di.2.length 100)))

/-! ## Helper lemmas -/

/-- Left commutation of elementwise row addition: `zipWith` truncates to
the common length either way and rational addition commutes. -/
theorem rowAdd_left_comm (z a b : List ℚ) :
    rowAdd (rowAdd z a) b = rowAdd (rowAdd z b) a := by
  induction z generalizing a b with
  | nil => simp [rowAdd]
  | cons zh zt ih =>
    cases a with
    | nil => simp [rowAdd]
    | cons ah ta =>
      cases b with
      | nil => simp [rowAdd]
      | cons bh tb =>
        show (zh + ah + bh) :: rowAdd (rowAdd zt ta) tb =
          (zh + bh + ah) :: rowAdd (rowAdd zt tb) ta
        rw [ih, add_right_comm]

/-- Left commutation of the elementwise matrix accumulation step. -/
theorem matAdd_left_comm (z a b : Mat) :
    matAdd (matAdd z a) b = matAdd (matAdd z b) a := by
  induction z generalizing a b with
  | nil => simp [matAdd]
  | cons zh zt ih =>
    cases a with
    | nil => simp [matAdd]
    | cons ah ta =>
      cases b with
      | nil => simp [matAdd]
      | cons bh tb =>
        show rowAdd (rowAdd zh ah) bh :: matAdd (matAdd zt ta) tb =
          rowAdd (rowAdd zh bh) ah :: matAdd (matAdd zt tb) ta
        rw [ih, rowAdd_left_comm]

/-- The accumulation fold is invariant under permutation of the score
matrices. -/
theorem accumulateScores_perm (l₁ l₂ : List Mat) (h : l₁.Perm l₂)
    (z : Mat) : accumulateScores z l₁ = accumulateScores z l₂ :=
  List.Perm.foldl_eq' h (fun x _ y _ w => matAdd_left_comm w x y) z

/-! ## Claims -/

/-- C1.  In header-only mode (`headers_only=True`), the parameter phase of
`cdmamsetup_series` succeeds for every params mapping — also one missing
the `modeCDCOM`, `parsCDCOM` and `phantomversion` entries — performing no
parameter check and substituting the fixed dummies
`phantomversion='3.2'`, `modeCDCOM=False`, `parsCDCOM=[]`. -/
theorem headers_only_setup_total_with_dummies (params : Params) :
    cdmamsetup_params params true =
      Except.ok { phantomversion := PyVal.str "3.2", modeCDCOM := false,
                  parsCDCOM := [] } := rfl

/-- C2 counter-evidence.  When not in header-only mode and the params
mapping has no `phantomversion` entry, `cdmamsetup_series` fails with
`KeyError('phantomversion')` from the dict lookup — the
`except AttributeError` clause does not catch it, so the intended
`ValueError(... 'missing phantomversion parameter!')` is never raised. -/
theorem missing_phantomversion_raises_keyerror :
    cdmamsetup_params [("modeCDCOM", PyVal.str "True")] false =
      Except.error (PyExc.keyError "phantomversion") := rfl

/-- C4.  Multi-image aggregation is order independent: for every
non-empty list of per-image score matrices of equal shape and every
permutation of that list, accumulating elementwise and then finalizing by
elementwise division by the image count yields the same averaged score
matrix. -/
theorem aggregation_order_independent (l₁ l₂ : List Mat) (z : Mat)
    (hne : l₁ ≠ [])
    (hshape : ∀ a ∈ l₁, ∀ b ∈ l₁, a.map List.length = b.map List.length)
    (hperm : l₁.Perm l₂) :
    finalizeScores (accumulateScores z l₁) l₁.length =
      finalizeScores (accumulateScores z l₂) l₂.length := by
  rw [accumulateScores_perm l₁ l₂ hperm z, hperm.length_eq]

/-- Witness for C4 at a concrete two-image list and its swap. -/
theorem aggregation_order_independent_witness :
    finalizeScores (accumulateScores [[0]] [[[1]], [[2]]]) 2 =
      finalizeScores (accumulateScores [[0]] [[[2]], [[1]]]) 2 :=
  aggregation_order_independent [[[1]], [[2]]] [[[2]], [[1]]] [[0]]
    (List.cons_ne_nil _ _) (by decide)
    (List.Perm.swap [[(2 : ℚ)]] [[(1 : ℚ)]] [])

/-- C3.  The detector path of `qc_series` is selected solely by the
`modeCDCOM` parameter: the external `CDCOMSingle` path runs exactly when
the string form of `params['modeCDCOM']` equals `'true'`
case-insensitively, otherwise the built-in `CDMamSingle` runs; in both
cases the resulting score matrix is passed unchanged to
`thresholdThickness`. -/
theorem qc_series_detector_dispatch (CS Score Out : Type) (params : Params)
    (v : PyVal) (cdmamSingle cdcomSingle : CS → Score)
    (thresholdThickness : Score → Out) (cs : CS)
    (hpv : ∃ w, dictFind params "phantomversion" = some w)
    (hmode : dictFind params "modeCDCOM" = some v)
    (hpars : ∃ s, dictGet params "parsCDCOM" (PyVal.str "") = PyVal.str s) :
    qc_series_run CS Score Out params cdmamSingle cdcomSingle
      thresholdThickness cs =
      Except.ok (if pyLower v.pyStr == "true"
        then (DetectorPath.cdcom, thresholdThickness (cdcomSingle cs))
        else (DetectorPath.cdmam, thresholdThickness (cdmamSingle cs))) := by
  obtain ⟨w, hw⟩ := hpv
  obtain ⟨s, hs⟩ := hpars
  simp only [qc_series_run, cdmamsetup_params, dictGetItem, hw, hmode, hs,
    tryExceptAttributeError, pySplitSemicolonVal, Bool.not_false,
    Bool.not_true, if_true, if_false]
  cases h : pyLower v.pyStr == "true" <;>
    simp [bind, Except.bind, pure, Except.pure, h]

/-- Witness for C3 at a concrete configuration selecting the external
detector path. -/
theorem qc_series_detector_dispatch_witness :
    qc_series_run Unit Nat Nat
      [("phantomversion", PyVal.str "3.2"), ("modeCDCOM", PyVal.str "True")]
      (fun _ => 1) (fun _ => 2) (fun n => n + 10) () =
      Except.ok (DetectorPath.cdcom, 12) := by
  have h := qc_series_detector_dispatch Unit Nat Nat
    [("phantomversion", PyVal.str "3.2"), ("modeCDCOM", PyVal.str "True")]
    (PyVal.str "True") (fun _ => 1) (fun _ => 2) (fun n => n + 10) ()
    ⟨PyVal.str "3.2", rfl⟩ rfl ⟨"", rfl⟩
  exact h.trans rfl

/-- C5 evidence.  `cdmamqc_list` can never finalize the accumulated score
matrix: it raises at its very first statement, because line 133 reads the
local `cs` before any assignment (and, were that repaired, line 154 reads
the undefined name `imagelist`), so no division by the processed-image
count happens and `thresholdThickness` is not reached. -/
theorem cdmamqc_list_crashes_before_averaging :
    cdmamqc_list Unit Unit ["img0.dcm"]
      [("phantomversion", PyVal.str "3.2"), ("modeCDCOM", PyVal.str "False")]
      (fun _ _ => Except.ok ()) (fun _ => (16, 16))
      (fun _ => Except.ok [[1]]) (fun _ => Except.ok [[1]])
      (fun _ _ => ()) =
      Except.error (PyExc.unboundLocalError "cs") := rfl

/-- C6 evidence.  With a detector that fails on the second image of a
two-image list, `cdmamqc_list` still terminates with
`UnboundLocalError('cs')` raised before any detector call, not with the
detector's own failure: the detector failure is never what propagates,
because the detectors are never reached. -/
theorem cdmamqc_list_detector_failure_unreachable :
    (cdmamqc_list String Unit ["img0.dcm", "img1.dcm"]
      [("phantomversion", PyVal.str "3.2"), ("modeCDCOM", PyVal.str "False")]
      (fun fname _ => Except.ok fname) (fun _ => (16, 16))
      (fun cs => if cs == "img1.dcm"
        then Except.error (PyExc.toolError "CDMamSingle failed")
        else Except.ok [[1]])
      (fun cs => if cs == "img1.dcm"
        then Except.error (PyExc.toolError "CDCOMSingle failed")
        else Except.ok [[1]])
      (fun _ _ => ()) =
      Except.error (PyExc.unboundLocalError "cs")) ∧
    PyExc.unboundLocalError "cs" ≠ PyExc.toolError "CDMamSingle failed" :=
  ⟨rfl, by decide⟩

/-- Filtering the per-diameter limit entries for float-ness keeps all of
them. -/
theorem filter_isFloat_limit_map (pairs : List (ℚ × ℚ)) (idname : String) :
    (pairs.map (fun dl =>
      ("limit_um_" ++ pyZfill (fmt2 dl.1) 4 ++ idname,
        ResVal.floatV dl.2))).filter (fun r => r.2.isFloat) =
    pairs.map (fun dl =>
      ("limit_um_" ++ pyZfill (fmt2 dl.1) 4 ++ idname,
        ResVal.floatV dl.2)) :=
  List.filter_eq_self.mpr (by
    intro a ha
    obtain ⟨dl, _, rfl⟩ := List.mem_map.mp ha
    simp [ResVal.isFloat])

/-- Filtering the artifact (`addObject`) entries for float-ness removes
all of them. -/
theorem filter_isFloat_obj_map (fnames : List String) :
    (fnames.map (fun fn => (splitextRoot fn, ResVal.objV fn))).filter
      (fun r => r.2.isFloat) = [] :=
  List.filter_eq_nil_iff.mpr (by
    intro a ha
    obtain ⟨fn, _, rfl⟩ := List.mem_map.mp ha
    simp [ResVal.isFloat])

/-- C7.  After a successful analysis, the float results emitted by
`qc_series` are exactly: for each paired (diameter, threshold) of
`zip(cs.diam_mm, cs.limit_um)` one float named `'limit_um_'` followed by
the diameter formatted to two decimals zero-padded to at least four
characters plus the identification suffix, and exactly one float named
`'iqf'` plus the same suffix — and no other float results. -/
theorem qc_series_float_results (cs : CSOut) (idname : String) :
    (qc_series_results cs idname).filter (fun r => r.2.isFloat) =
      (cs.diam_mm.zip cs.limit_um).map (fun dl =>
        ("limit_um_" ++ pyZfill (fmt2 dl.1) 4 ++ idname,
          ResVal.floatV dl.2))
      ++ [("iqf" ++ idname, ResVal.floatV cs.iqf)] := by
  simp only [qc_series_results, List.filter_append, filter_isFloat_limit_map,
    filter_isFloat_obj_map]
  simp [List.filter, ResVal.isFloat]

/-- C8.  Every per-field string value emitted by `header_series` (the
entries after the leading plugin-version entry) has length at most 100,
for every DICOM field content. -/
theorem header_series_fields_truncated (qcversion idname : String)
    (dicominfo : List (String × String)) (p : String × String)
    (hp : p ∈ (header_series_results qcversion idname dicominfo).drop 1) :
    p.2.length ≤ 100 := by
  have hmem : p ∈ dicominfo.map (fun di =>
      (di.1 ++ idname, pySliceUpTo di.2 (min di.2.length 100))) := by
    simpa [header_series_results] using hp
  obtain ⟨di, _, rfl⟩ := List.mem_map.mp hmem
  show (di.2.data.take (min di.2.length 100)).length ≤ 100
  rw [List.length_take]
  omega

/-- Witness for C8 at a 150-character field value. -/
theorem header_series_fields_truncated_witness :
    (pySliceUpTo (String.mk (List.replicate 150 'a'))
      (min (String.mk (List.replicate 150 'a')).length 100)).length ≤ 100 :=
  header_series_fields_truncated "20170825" "_ALsu"
    [("RoomName", String.mk (List.replicate 150 'a'))]
    ("RoomName" ++ "_ALsu",
      pySliceUpTo (String.mk (List.replicate 150 'a'))
        (min (String.mk (List.replicate 150 'a')).length 100))
    (by simp [header_series_results])

/-- A string starting with `pre` followed by two more pieces passes the
`strStartsWith pre` test. -/
theorem strStartsWith_append₂ (p a b : String) :
    strStartsWith p (p ++ a ++ b) = true := by
  show (p.data.isPrefixOf ((p.data ++ a.data) ++ b.data)) = true
  rw [List.append_assoc]
  exact List.isPrefixOf_iff_prefix.mpr (List.prefix_append _ _)

/-- The `iqf` result name never carries the `limit_um_` marker. -/
theorem iqf_name_not_limit (idname : String) :
    strStartsWith "limit_um_" ("iqf" ++ idname) = false := rfl

/-- The per-diameter limit entries all pass the limit-name float
filter. -/
theorem filter_limit_pred_limit_map (pairs : List (ℚ × ℚ))
    (idname : String) :
    (pairs.map (fun dl =>
      ("limit_um_" ++ pyZfill (fmt2 dl.1) 4 ++ idname,
        ResVal.floatV dl.2))).filter
      (fun r => strStartsWith "limit_um_" r.1 && r.2.isFloat) =
    pairs.map (fun dl =>
      ("limit_um_" ++ pyZfill (fmt2 dl.1) 4 ++ idname,
        ResVal.floatV dl.2)) :=
  List.filter_eq_self.mpr (by
    intro a ha
    obtain ⟨dl, _, rfl⟩ := List.mem_map.mp ha
    simp [ResVal.isFloat, strStartsWith_append₂])

/-- The `iqf` entry does not pass the limit-name float filter. -/
theorem filter_limit_pred_iqf (idname : String) (q : ℚ) :
    ([("iqf" ++ idname, ResVal.floatV q)].filter
      (fun r => strStartsWith "limit_um_" r.1 && r.2.isFloat)) = [] := by
  simp [List.filter, iqf_name_not_limit]

/-- The artifact entries do not pass the limit-name float filter. -/
theorem filter_limit_pred_obj_map (fnames : List String) :
    (fnames.map (fun fn => (splitextRoot fn, ResVal.objV fn))).filter
      (fun r => strStartsWith "limit_um_" r.1 && r.2.isFloat) = [] :=
  List.filter_eq_nil_iff.mpr (by
    intro a ha
    obtain ⟨fn, _, rfl⟩ := List.mem_map.mp ha
    simp [ResVal.isFloat])

/-- C9.  When `cs.diam_mm` and `cs.limit_um` have different lengths,
`qc_series` silently emits only `min(len(cs.diam_mm), len(cs.limit_um))`
per-diameter limit results (Python `zip` truncation) — the excess
diameters or thresholds are dropped without error. -/
theorem qc_series_zip_truncation (cs : CSOut) (idname : String)
    (hlen : cs.diam_mm.length ≠ cs.limit_um.length) :
    ((qc_series_results cs idname).filter
      (fun r => strStartsWith "limit_um_" r.1 && r.2.isFloat)).length =
      min cs.diam_mm.length cs.limit_um.length := by
  simp only [qc_series_results, List.filter_append,
    filter_limit_pred_limit_map, filter_limit_pred_iqf,
    filter_limit_pred_obj_map, List.append_nil, List.length_map,
    List.length_zip]

/-- Witness for C9 with two diameters and one threshold: exactly one
limit result is emitted. -/
theorem qc_series_zip_truncation_witness :
    ((qc_series_results
      { diam_mm := [1, 2], limit_um := [33], iqf := 7,
        threshold_fnames := [], fit_fnames := [] } "_RHsu").filter
      (fun r => strStartsWith "limit_um_" r.1 && r.2.isFloat)).length = 1 :=
  qc_series_zip_truncation
    { diam_mm := [1, 2], limit_um := [33], iqf := 7,
      threshold_fnames := [], fit_fnames := [] } "_RHsu" (by decide)

/-- C10.  When the `parsCDCOM` parameter is absent in non-header mode,
the parameter phase sets `parsCDCOM` to `['']` — the one-element list
holding the empty string, the result of splitting `''` on `';'` — whereas
header-only mode sets it to the empty list `[]`; the two defaults
differ. -/
theorem parsCDCOM_default_differs (params : Params) (v w : PyVal)
    (hno : dictFind params "parsCDCOM" = none)
    (hpv : dictFind params "phantomversion" = some v)
    (hmode : dictFind params "modeCDCOM" = some w) :
    (∃ r, cdmamsetup_params params false = Except.ok r ∧
      r.parsCDCOM = [""]) ∧
    (∃ r, cdmamsetup_params params true = Except.ok r ∧
      r.parsCDCOM = []) ∧
    ([""] : List String) ≠ [] := by
  refine ⟨⟨SetupParams.mk v (pyLower w.pyStr == "true") [""], ?_, rfl⟩,
    ⟨_, rfl, rfl⟩, by simp⟩
  simp only [cdmamsetup_params, dictGetItem, dictGet, hno, hpv, hmode,
    tryExceptAttributeError, pySplitSemicolonVal, Option.getD,
    Bool.not_false, if_true]
  rfl

/-- Witness for C10 at a concrete configuration without `parsCDCOM`. -/
theorem parsCDCOM_default_differs_witness :
    (∃ r, cdmamsetup_params
      [("phantomversion", PyVal.str "3.2"), ("modeCDCOM", PyVal.str "False")]
      false = Except.ok r ∧ r.parsCDCOM = [""]) ∧
    (∃ r, cdmamsetup_params
      [("phantomversion", PyVal.str "3.2"), ("modeCDCOM", PyVal.str "False")]
      true = Except.ok r ∧ r.parsCDCOM = []) ∧
    ([""] : List String) ≠ [] :=
  parsCDCOM_default_differs
    [("phantomversion", PyVal.str "3.2"), ("modeCDCOM", PyVal.str "False")]
    (PyVal.str "3.2") (PyVal.str "False") rfl rfl rfl

end CDMamWrapper
